import Mathlib

/-!
Verification of the PVxSystem per-site simulation engine
(src/src/server/src/index.ts, with the near-duplicate variant in
src/unnamed/part_001).

The embedding translates the server's simulation core:

* the JS `Map<number, _>` registry of running simulators, as an
  association list with JS `Map.set` / `Map.delete` / `Map.has` semantics;
* the pure physics model (`irradianceAtHour`, `moduleTemp`,
  `computeACPowerKw`, `computeSitePhysics`) over the reals, with the
  `Math.random()` draws passed in as explicit parameters in [0, 1);
* the seed endpoint's timestamp schedule (`Math.round(hour * 3600 * 1000)`
  on `hour = i * 24 / points`) over the rationals;
* the seed endpoint's persistence loop with fallible weather / telemetry
  writes, mirroring the try/catch that answers 500 on any failure;
* small-step interleaving models of the canonical and the part_001
  variant of `POST /sites/:id/simulate/start`, where a request yields
  exactly at its single `await prisma.site.findUnique` point.
-/

namespace PVx

/-! ### Association-list model of the JS `Map` registry -/

/-- JS `Map.has(id)`: is a key present. -/
def mapHas {α : Type} (r : List (Nat × α)) (id : Nat) : Bool :=
  r.any (fun p => p.1 == id)

/-- JS `Map.set(id, v)`: replace the binding in place if present, else append. -/
def mapSet {α : Type} (r : List (Nat × α)) (id : Nat) (v : α) : List (Nat × α) :=
  if mapHas r id then r.map (fun p => if p.1 == id then (id, v) else p)
  else r ++ [(id, v)]

/-- JS `Map.delete(id)`: remove all bindings of the key. -/
def mapDelete {α : Type} (r : List (Nat × α)) (id : Nat) : List (Nat × α) :=
  r.filter (fun p => p.1 != id)

/-- Number of entries stored under a key (a JS `Map` keeps at most one). -/
def mapCount {α : Type} (r : List (Nat × α)) (id : Nat) : Nat :=
  (r.filter (fun p => p.1 == id)).length

/-! ### Registry and the sequential start endpoint (canonical index.ts) -/

/-- The canonical server's registry value: `{ timer, running }`. -/
structure Simulator where
  timer : Nat
  running : Bool
deriving DecidableEq, Repr

/-- Outcome of `POST /sites/:id/simulate/start` as seen by the caller. -/
inductive StartResult where
  | started
  | alreadyRunning
  | siteNotFound
deriving DecidableEq, Repr

/-- Sequential semantics of the canonical start handler: reject if the
registry already has a handle, then look the site up in the database
(`db`), and only on success install a timer under the site id. -/
def startSim (db : Nat → Bool) (r : List (Nat × Simulator)) (siteId timer : Nat) :
    StartResult × List (Nat × Simulator) :=
  if mapHas r siteId then (.alreadyRunning, r)
  else if db siteId then (.started, mapSet r siteId ⟨timer, true⟩)
  else (.siteNotFound, r)

/-! ### Seed schedule (`POST /sites/:id/simulate/seed`) -/

/-- The loop's `hour = (i * 24) / points`. -/
def seedHour (points i : Nat) : ℚ :=
  (i * 24 : ℚ) / points

/-- Milliseconds after start-of-day of the i-th seeded sample:
`Math.round(hour * 3600 * 1000)`. -/
def seedTimestampMs (points i : Nat) : ℤ :=
  round (seedHour points i * (3600 * 1000))

/-- The timestamps of one whole seed batch, in loop order. -/
def seedTimestamps (points : Nat) : List ℤ :=
  (List.range points).map (seedTimestampMs points)

/-! ### Seed persistence loop with fallible writes -/

/-- Rows committed so far by a seed batch: `weatherData.create` rows and
`telemetry.create` rows (`created.length` counts the latter). -/
structure SeedState where
  weatherRows : Nat
  telemetryRows : Nat
deriving DecidableEq, Repr

/-- Response of the seed endpoint: `{created: n}` or the catch-all
`500 {error: "Failed to seed telemetry"}`. -/
inductive SeedResponse where
  | ok (created : Nat)
  | serverError (msg : String)
deriving DecidableEq, Repr

/-- The seed loop body, iterated over `i = 0, 1, ...` with `n` iterations
remaining.  Each iteration first inserts a weather row, then a telemetry
row; `wOk i` / `tOk i` tell whether those two writes succeed.  The first
failing write throws, aborting the rest of the batch (second component
`false`). -/
def seedLoop (wOk tOk : Nat → Bool) : Nat → Nat → SeedState → SeedState × Bool
  | 0, _, st => (st, true)
  | n + 1, i, st =>
    if wOk i then
      if tOk i then
        seedLoop wOk tOk n (i + 1) ⟨st.weatherRows + 1, st.telemetryRows + 1⟩
      else (⟨st.weatherRows + 1, st.telemetryRows⟩, false)
    else (st, false)

/-- Run a whole seed batch from an empty transaction log. -/
def seedRun (wOk tOk : Nat → Bool) (points : Nat) : SeedState × Bool :=
  seedLoop wOk tOk points 0 ⟨0, 0⟩

/-- The endpoint's HTTP answer: `{created: created.length}` on success,
and the catch branch's bare 500 otherwise. -/
def seedEndpoint (wOk tOk : Nat → Bool) (points : Nat) : SeedResponse :=
  let r := seedRun wOk tOk points
  if r.2 then .ok r.1.telemetryRows else .serverError "Failed to seed telemetry"

/-! ### Interleaving model of two concurrent start requests

A start request runs synchronously from its entry up to its single
`await prisma.site.findUnique(...)`, yields there, and then runs its
remainder synchronously.  So each request is two atomic steps:
`atCheck` (everything before the await) and `atInstall` (everything
after it).  A schedule is the order in which the event loop resumes the
two requests. -/

/-- Program counter of one in-flight start request. -/
inductive TState where
  | atCheck
  | atInstall
  | finished (r : StartResult)
deriving DecidableEq, Repr

/-- State of the canonical server while two start requests (A and B) for
the same site are in flight: the registry, both program counters, and
how many `setInterval` timers have been created so far. -/
structure CSys where
  reg : List (Nat × Simulator)
  tA : TState
  tB : TState
  timersMade : Nat
deriving DecidableEq, Repr

/-- Replace the program counter of request A (`who = true`) or B. -/
def csetT (s : CSys) (who : Bool) (t : TState) : CSys :=
  if who then { s with tA := t } else { s with tB := t }

/-- One event-loop resumption of the canonical start handler.  Before the
await it only checks `simulators.has(siteId)`; after the await it creates
a timer and stores the handle (the reservation happens only here). -/
def canonStep (db : Bool) (id : Nat) (s : CSys) (who : Bool) : CSys :=
  match (if who then s.tA else s.tB) with
  | .atCheck =>
    if mapHas s.reg id then csetT s who (.finished .alreadyRunning)
    else csetT s who .atInstall
  | .atInstall =>
    if db then
      { csetT s who (.finished .started) with
          reg := mapSet s.reg id ⟨s.timersMade, true⟩,
          timersMade := s.timersMade + 1 }
    else csetT s who (.finished .siteNotFound)
  | .finished _ => s

/-- Run the canonical two-request system under a schedule. -/
def canonRun (db : Bool) (id : Nat) (sched : List Bool) (s : CSys) : CSys :=
  sched.foldl (canonStep db id) s

/-- Both requests still pending, empty registry, no timers yet. -/
def canonInit : CSys :=
  ⟨[], .atCheck, .atCheck, 0⟩

/-- State of the part_001 variant server: its registry maps a site id to
`timer | null` (`none` is the reservation placeholder). -/
structure VSys where
  reg : List (Nat × Option Nat)
  tA : TState
  tB : TState
  nextTimer : Nat
deriving DecidableEq, Repr

/-- Replace the program counter of request A (`who = true`) or B. -/
def vsetT (s : VSys) (who : Bool) (t : TState) : VSys :=
  if who then { s with tA := t } else { s with tB := t }

/-- One event-loop resumption of the part_001 variant start handler: the
pre-await step checks the registry and immediately reserves the slot with
`null`; the post-await step either installs the timer or, when the site
does not exist, deletes the reservation and answers 404. -/
def variantStep (db : Bool) (id : Nat) (s : VSys) (who : Bool) : VSys :=
  match (if who then s.tA else s.tB) with
  | .atCheck =>
    if mapHas s.reg id then vsetT s who (.finished .alreadyRunning)
    else { vsetT s who .atInstall with reg := mapSet s.reg id none }
  | .atInstall =>
    if db then
      { vsetT s who (.finished .started) with
          reg := mapSet s.reg id (some s.nextTimer),
          nextTimer := s.nextTimer + 1 }
    else { vsetT s who (.finished .siteNotFound) with reg := mapDelete s.reg id }
  | .finished _ => s

/-- Run the variant two-request system under a schedule. -/
def variantRun (db : Bool) (id : Nat) (sched : List Bool) (s : VSys) : VSys :=
  sched.foldl (variantStep db id) s

/-- Both requests still pending, empty registry. -/
def variantInit : VSys :=
  ⟨[], .atCheck, .atCheck, 0⟩

/-- A request holds (or is about to hold) the slot: it has reserved and
not released, or it has finished successfully. -/
def busy (t : TState) : Bool :=
  match t with
  | .atInstall => true
  | .finished .started => true
  | _ => false

/-- Safety invariant of the variant system: the two requests are never
both busy, the slot is occupied exactly when one of them is busy, the
registry never holds more than one entry for the site, and with an absent
site nobody ever finishes started. -/
def variantInv (db : Bool) (id : Nat) (s : VSys) : Prop :=
  (busy s.tA && busy s.tB) = false ∧
  mapHas s.reg id = (busy s.tA || busy s.tB) ∧
  mapCount s.reg id ≤ 1 ∧
  (db = false → s.tA ≠ .finished .started ∧ s.tB ≠ .finished .started)

/-! ### Physics model (pure functions over the reals)

The floating-point arithmetic of the source is embedded as exact real
arithmetic; every `Math.random()` draw is an explicit parameter in
`[0, 1)`. -/

/-- Daily irradiance curve: zero before sunrise / after sunset, else
`max(0, gMax * sin(pi * (hour - sunrise) / (sunset - sunrise)))`. -/
noncomputable def irradianceAtHour (hour sunrise sunset gMax : ℝ) : ℝ :=
  if hour < sunrise ∨ sunset < hour then 0
  else
    let dayLen := sunset - sunrise
    let x := (hour - sunrise) / dayLen
    max 0 (gMax * Real.sin (Real.pi * x))

/-- NOCT module-temperature approximation:
`ambient + (NOCT - 20) * (irradiance / 800)`. -/
noncomputable def moduleTemp (ambient irradiance NOCT : ℝ) : ℝ :=
  ambient + (NOCT - 20) * (irradiance / 800)

/-- AC power in kW: DC power scaled linearly in irradiance with derate and
temperature factor, pushed through a 0.98 inverter efficiency, floored at
zero, then clipped to the rated capacity. -/
noncomputable def computeACPowerKw
    (capacityKw irradiance tempCoeff moduleTempC derate : ℝ) : ℝ :=
  let gFactor := irradiance / 1000
  let tempFactor := 1 + tempCoeff * (moduleTempC - 25)
  let p_dc_kw := capacityKw * gFactor * derate * tempFactor
  let inverterEff := 0.98
  let p_ac_kw := max 0 (p_dc_kw * inverterEff)
  min p_ac_kw capacityKw

/-- Local wall-clock fields of a JS `Date`: `getHours()` in 0..23 and
`getMinutes()` in 0..59. -/
structure LocalTime where
  hours : Nat
  minutes : Nat
deriving DecidableEq, Repr

/-- The handler's fractional hour: `(getHours() % 24) + getMinutes() / 60`. -/
noncomputable def dateHour (t : LocalTime) : ℝ :=
  ((t.hours % 24 : Nat) : ℝ) + (t.minutes : ℝ) / 60

/-- One generated sample before persistence, exactly the record returned
by `computeSitePhysics`. -/
structure Physics where
  hour : ℝ
  irradiance : ℝ
  ambient : ℝ
  moduleTempC : ℝ
  powerKw : ℝ
  windSpeed : ℝ
  windDir : ℝ

/-- The canonical `computeSitePhysics(site, timestamp)`.  `capacity_kw` is
the site's nullable rated capacity (`null` falls back to 1.0), and
`randPower randWind randDir` are the three `Math.random()` draws.  The
sample's `powerKw` is `max(0, computeACPowerKw(...) + rand * 0.2)`. -/
noncomputable def computeSitePhysics (capacity_kw : Option ℝ) (timestamp : LocalTime)
    (randPower randWind randDir : ℝ) : Physics :=
  let capKw := capacity_kw.getD 1
  let hour := dateHour timestamp
  let irradiance := irradianceAtHour hour 6 18 900
  let ambient := 20 + 10 * Real.sin (2 * Real.pi / 24 * hour - Real.pi / 2)
  let moduleTempC := moduleTemp ambient irradiance 45
  let powerKw := computeACPowerKw capKw irradiance (-0.004) moduleTempC 0.95
  let noisyPowerKw := max 0 (powerKw + randPower * 0.2)
  { hour := hour
    irradiance := irradiance
    ambient := ambient
    moduleTempC := moduleTempC
    powerKw := noisyPowerKw
    windSpeed := randWind * 10
    windDir := randDir * 360 }

/-! ### Persistence and publication of one generated sample -/

/-- JS `(+x.toFixed(d))`: round half-up to `d` decimal places. -/
noncomputable def roundTo (d : Nat) (x : ℝ) : ℝ :=
  ((round (x * 10 ^ d) : ℤ) : ℝ) / 10 ^ d

/-- The `weather_data` row written for a sample (2 decimal places). -/
structure WeatherRow where
  irradiance_wm2 : ℝ
  ambient_temp_c : ℝ
  module_temp_c : ℝ
  wind_speed_ms : ℝ
  wind_dir_deg : ℝ

/-- The `telemetry` row written for a sample (`parameter: "Power"`,
`unit: "kW"`, value at 4 decimal places). -/
structure TelemetryRow where
  value : ℝ

/-- The weather facet actually persisted: every field through
`toFixed(2)`. -/
noncomputable def persistedWeather (p : Physics) : WeatherRow :=
  { irradiance_wm2 := roundTo 2 p.irradiance
    ambient_temp_c := roundTo 2 p.ambient
    module_temp_c := roundTo 2 p.moduleTempC
    wind_speed_ms := roundTo 2 p.windSpeed
    wind_dir_deg := roundTo 2 p.windDir }

/-- The telemetry facet actually persisted: power through `toFixed(4)`. -/
noncomputable def persistedTelemetry (p : Physics) : TelemetryRow :=
  { value := roundTo 4 p.powerKw }

/-- The WebSocket payload built by the live-tick callback from the value
returned by `generateTelemetryPointForSite` (which spreads the raw
physics record): `{siteId, timestamp, powerKw, irradiance, temp}`. -/
structure WsPayload where
  powerKw : ℝ
  irradiance : ℝ
  temp : ℝ

/-- The published message for a sample: the raw (unrounded) fields of the
physics record. -/
def tickPayload (p : Physics) : WsPayload :=
  { powerKw := p.powerKw, irradiance := p.irradiance, temp := p.moduleTempC }

/-- `generateTelemetryPointForSite`: look the site up (its nullable
capacity if present), fail with "Site not found" otherwise; then compute
the physics record, persist its two facets, and return the raw record. -/
noncomputable def generateTelemetryPointForSite (site : Option (Option ℝ))
    (timestamp : LocalTime) (randPower randWind randDir : ℝ) :
    Except String (WeatherRow × TelemetryRow × Physics) :=
  match site with
  | none => .error "Site not found"
  | some capacity_kw =>
    let p := computeSitePhysics capacity_kw timestamp randPower randWind randDir
    .ok (persistedWeather p, persistedTelemetry p, p)

/-! ## Lemmas about the JS `Map` model -/

theorem mapCount_eq_zero_of_not_has {α : Type} (r : List (Nat × α)) (id : Nat)
    (h : mapHas r id = false) : mapCount r id = 0 := by
  induction r with
  | nil => rfl
  | cons p r ih =>
    simp only [mapHas, List.any_cons, Bool.or_eq_false_iff] at h
    have h2 : mapHas r id = false := by simpa [mapHas] using h.2
    simp only [mapCount, List.filter_cons, h.1]
    simpa [mapCount] using ih h2

theorem mapHas_mapSet {α : Type} (r : List (Nat × α)) (id : Nat) (v : α) :
    mapHas (mapSet r id v) id = true := by
  unfold mapSet
  split
  case isTrue h =>
    unfold mapHas at h ⊢
    rw [List.any_map]
    have he : ((fun p : Nat × α => p.1 == id) ∘
        fun p : Nat × α => if p.1 == id then (id, v) else p) =
        fun p : Nat × α => p.1 == id := by
      funext p
      by_cases hp : p.1 = id <;> simp [hp]
    rw [he]
    exact h
  case isFalse h =>
    unfold mapHas
    simp

theorem mapCount_mapSet_of_not_has {α : Type} (r : List (Nat × α)) (id : Nat) (v : α)
    (h : mapHas r id = false) : mapCount (mapSet r id v) id = 1 := by
  unfold mapSet
  rw [if_neg (by simp [h])]
  unfold mapCount
  rw [List.filter_append, List.length_append]
  have h0 : mapCount r id = 0 := mapCount_eq_zero_of_not_has r id h
  unfold mapCount at h0
  simp [h0]

theorem mapCount_mapSet_of_has {α : Type} (r : List (Nat × α)) (id : Nat) (v : α)
    (h : mapHas r id = true) : mapCount (mapSet r id v) id = mapCount r id := by
  unfold mapSet
  rw [if_pos (by simp [h])]
  clear h
  unfold mapCount
  induction r with
  | nil => rfl
  | cons p r ih =>
    by_cases hp : p.1 = id <;> simpa [hp, List.filter_cons] using ih

theorem mapHas_mapDelete {α : Type} (r : List (Nat × α)) (id : Nat) :
    mapHas (mapDelete r id) id = false := by
  simp [mapDelete, mapHas]

theorem mapCount_mapDelete {α : Type} (r : List (Nat × α)) (id : Nat) :
    mapCount (mapDelete r id) id = 0 :=
  mapCount_eq_zero_of_not_has _ _ (mapHas_mapDelete r id)

/-! ## C2: starting twice in a row -/

/-- C2 (confirmed): if the site exists and no handle for it is registered,
the first `start` succeeds, an immediately following `start` for the same
site fails with `AlreadyRunning`, and the registry then holds exactly one
handle for that site. -/
theorem start_twice_second_already_running (db : Nat → Bool) (r : List (Nat × Simulator))
    (siteId t1 t2 : Nat) (hdb : db siteId = true) (hfree : mapHas r siteId = false) :
    (startSim db r siteId t1).1 = .started ∧
    (startSim db (startSim db r siteId t1).2 siteId t2).1 = .alreadyRunning ∧
    mapCount (startSim db (startSim db r siteId t1).2 siteId t2).2 siteId = 1 := by
  have h1 : startSim db r siteId t1 = (.started, mapSet r siteId ⟨t1, true⟩) := by
    simp [startSim, hfree, hdb]
  have h2 : mapHas (mapSet r siteId (⟨t1, true⟩ : Simulator)) siteId = true :=
    mapHas_mapSet r siteId _
  refine ⟨by rw [h1], ?_, ?_⟩
  · rw [h1]
    simp [startSim, h2]
  · rw [h1]
    simp [startSim, h2, mapCount_mapSet_of_not_has r siteId _ hfree]

/-- Witness for C2 at a concrete database and registry. -/
theorem start_twice_second_already_running_witness :
    (startSim (fun _ => true) [] 1 7).1 = .started ∧
    (startSim (fun _ => true) (startSim (fun _ => true) [] 1 7).2 1 8).1 = .alreadyRunning ∧
    mapCount (startSim (fun _ => true) (startSim (fun _ => true) [] 1 7).2 1 8).2 1 = 1 :=
  start_twice_second_already_running (fun _ => true) [] 1 7 8 rfl rfl

/-! ## C3: the seed timestamp schedule -/

/-- C3 counterexample: for `points = 7` the persisted timestamps are NOT
evenly spaced — `Math.round` to whole milliseconds makes consecutive gaps
differ (12342857 ms vs 12342858 ms), refuting even spacing by
`24 / points` hours for every positive `points`. -/
theorem seed_schedule_uneven_for_seven :
    seedTimestampMs 7 1 - seedTimestampMs 7 0 ≠
      seedTimestampMs 7 4 - seedTimestampMs 7 3 := by
  have h : ∀ i : Nat, seedTimestampMs 7 i =
      ((2 * (i * 86400000) + 7 : ℤ) / (14 : ℤ)) := by
    intro i
    unfold seedTimestampMs seedHour
    rw [round_eq]
    have key : ((i : Nat) * 24 : ℚ) / ((7 : Nat) : ℚ) * (3600 * 1000) + 1 / 2 =
        (((2 * ((i : ℤ) * 86400000) + 7 : ℤ) : ℚ)) / (((14 : Nat) : ℕ) : ℚ) := by
      push_cast
      ring
    rw [key, Rat.floor_intCast_div_natCast]
    push_cast
    ring_nf
  rw [h 0, h 1, h 3, h 4]
  decide

/-- Exact value of a seed timestamp when `points` divides the day length
in milliseconds. -/
theorem seedTimestampMs_of_dvd (points k : Nat) (hp : 0 < points)
    (hd : (points : ℤ) ∣ 86400000) :
    seedTimestampMs points k = (k : ℤ) * ((86400000 : ℤ) / (points : ℤ)) := by
  obtain ⟨q, hq⟩ := hd
  have hpz : ((points : ℤ) : ℚ) ≠ 0 := by
    exact_mod_cast Int.natCast_ne_zero.mpr hp.ne'
  have hdiv : (86400000 : ℤ) / (points : ℤ) = q := by
    rw [hq]
    exact Int.mul_ediv_cancel_left q (by exact_mod_cast hp.ne')
  rw [hdiv]
  have hqQ : (86400000 : ℚ) = ((points : ℤ) : ℚ) * ((q : ℤ) : ℚ) := by
    exact_mod_cast congrArg (fun n : ℤ => (n : ℚ)) hq
  unfold seedTimestampMs seedHour
  have harg : ((k : ℚ) * 24) / ((points : Nat) : ℚ) * (3600 * 1000) =
      (((k : ℤ) * q : ℤ) : ℚ) := by
    push_cast
    push_cast at hqQ
    field_simp
    linear_combination (k : ℚ) * hqQ
  rw [harg]
  exact round_intCast _

/-- C3 (amended): seeding persists exactly `points` samples; whenever
`points` divides the 86,400,000 ms day (in particular `points = 24`),
the i-th timestamp is exactly `i * 24 / points` hours after start of day,
the gaps are all exactly `24 / points` hours, and the timestamps strictly
increase. -/
theorem seed_schedule_exact_when_divisible (points i j : Nat)
    (hp : 0 < points) (hd : (points : ℤ) ∣ 86400000) (hij : i < j) :
    (seedTimestamps points).length = points ∧
    seedTimestampMs points i = (i : ℤ) * ((86400000 : ℤ) / (points : ℤ)) ∧
    seedTimestampMs points (i + 1) - seedTimestampMs points i =
      (86400000 : ℤ) / (points : ℤ) ∧
    seedTimestampMs points i < seedTimestampMs points j := by
  have hq : 0 < (86400000 : ℤ) / (points : ℤ) := by
    obtain ⟨q, hqe⟩ := hd
    have hpz : (0 : ℤ) < (points : ℤ) := by exact_mod_cast hp
    have : (86400000 : ℤ) / (points : ℤ) = q := by
      rw [hqe]
      exact Int.mul_ediv_cancel_left q hpz.ne'
    rw [this]
    nlinarith [hqe]
  refine ⟨by simp [seedTimestamps], seedTimestampMs_of_dvd points i hp hd, ?_, ?_⟩
  · rw [seedTimestampMs_of_dvd points (i + 1) hp hd, seedTimestampMs_of_dvd points i hp hd]
    push_cast
    ring
  · rw [seedTimestampMs_of_dvd points i hp hd, seedTimestampMs_of_dvd points j hp hd]
    have hij' : (i : ℤ) < (j : ℤ) := by exact_mod_cast hij
    exact mul_lt_mul_of_pos_right hij' hq

/-- Witness for C3 (amended) at the default `points = 24`. -/
theorem seed_schedule_exact_when_divisible_witness :
    (seedTimestamps 24).length = 24 ∧
    seedTimestampMs 24 0 = (0 : ℤ) * ((86400000 : ℤ) / ((24 : Nat) : ℤ)) ∧
    seedTimestampMs 24 (0 + 1) - seedTimestampMs 24 0 =
      (86400000 : ℤ) / ((24 : Nat) : ℤ) ∧
    seedTimestampMs 24 0 < seedTimestampMs 24 1 :=
  seed_schedule_exact_when_divisible 24 0 1 (by decide)
    ⟨3600000, by decide⟩ (by decide)

/-! ## C6: persistence failure during seeding -/

/-- Characterization of a seed batch whose first failing write is at loop
index `k`: the loop stops there with `k` telemetry rows committed (plus
the weather row of iteration `k` if that one still went through). -/
theorem seedLoop_first_fail (wOk tOk : Nat → Bool) (k : Nat) :
    ∀ (n i : Nat) (st : SeedState), k < n →
    (∀ j, j < k → wOk (i + j) = true ∧ tOk (i + j) = true) →
    (wOk (i + k) = false ∨ tOk (i + k) = false) →
    seedLoop wOk tOk n i st =
      (⟨st.weatherRows + k + (if wOk (i + k) = true then 1 else 0),
        st.telemetryRows + k⟩, false) := by
  induction k with
  | zero =>
    intro n i st hk hpre hfail
    obtain ⟨m, rfl⟩ : ∃ m, n = m + 1 := ⟨n - 1, by omega⟩
    simp only [Nat.add_zero] at hfail ⊢
    by_cases hwv : wOk i = true
    · have htv : tOk i = false := by
        rcases hfail with hw | ht
        · rw [hwv] at hw
          cases hw
        · exact ht
      simp [seedLoop, hwv, htv]
    · have hw : wOk i = false := by simpa using hwv
      simp [seedLoop, hw]
  | succ k ih =>
    intro n i st hk hpre hfail
    obtain ⟨m, rfl⟩ : ∃ m, n = m + 1 := ⟨n - 1, by omega⟩
    have h0 : wOk i = true ∧ tOk i = true := by
      have := hpre 0 (Nat.succ_pos k)
      simpa using this
    have hshift : i + 1 + k = i + (k + 1) := by omega
    have hrec := ih m (i + 1) ⟨st.weatherRows + 1, st.telemetryRows + 1⟩ (by omega)
      (fun j hj => by
        have := hpre (j + 1) (by omega)
        have hj' : i + (j + 1) = i + 1 + j := by omega
        rwa [hj'] at this)
      (by rwa [hshift])
    simp only [seedLoop, h0.1, h0.2, if_true]
    rw [hrec, hshift]
    by_cases hw2 : wOk (i + (k + 1)) = true <;>
      simp [hw2, Prod.mk.injEq, SeedState.mk.injEq] <;> omega

/-- C6 counterexample: seeding 2 points where the telemetry write of loop
index 1 fails commits exactly one sample, yet the endpoint answers the
generic 500 `"Failed to seed telemetry"`, not the partial count
`{created: 1}` that the claim requires. -/
theorem seed_midbatch_failure_counterexample :
    seedEndpoint (fun _ => true) (fun i => i == 0) 2 =
      .serverError "Failed to seed telemetry" ∧
    seedEndpoint (fun _ => true) (fun i => i == 0) 2 ≠ .ok 1 ∧
    (seedRun (fun _ => true) (fun i => i == 0) 2).1.telemetryRows = 1 := by
  have he : seedEndpoint (fun _ => true) (fun i => i == 0) 2 =
      .serverError "Failed to seed telemetry" := rfl
  refine ⟨he, ?_, rfl⟩
  rw [he]
  simp

/-- C6 (amended): a persistence failure partway through a seed batch
aborts the remaining batch, and the rows written before the failure stay
committed (`k` telemetry rows for a first failure at index `k`), but the
endpoint loses that partial count: it answers the generic
500 `"Failed to seed telemetry"` instead of returning it. -/
theorem seed_failure_aborts_without_count (wOk tOk : Nat → Bool)
    (points k : Nat) (hk : k < points)
    (hpre : ∀ j, j < k → wOk j = true ∧ tOk j = true)
    (hfail : wOk k = false ∨ tOk k = false) :
    seedEndpoint wOk tOk points = .serverError "Failed to seed telemetry" ∧
    (seedRun wOk tOk points).1.telemetryRows = k := by
  have h := seedLoop_first_fail wOk tOk k points 0 ⟨0, 0⟩ hk
    (fun j hj => by simpa using hpre j hj) (by simpa using hfail)
  constructor
  · unfold seedEndpoint seedRun
    rw [show seedLoop wOk tOk points 0 ⟨0, 0⟩ =
      (⟨(0 : Nat) + k + (if wOk (0 + k) = true then 1 else 0), (0 : Nat) + k⟩, false) from h]
    simp
  · unfold seedRun
    rw [h]
    simp

/-- Witness for C6 (amended): 3 points, telemetry write fails at index 1. -/
theorem seed_failure_aborts_without_count_witness :
    seedEndpoint (fun _ => true) (fun i => i == 0) 3 =
      .serverError "Failed to seed telemetry" ∧
    (seedRun (fun _ => true) (fun i => i == 0) 3).1.telemetryRows = 1 :=
  seed_failure_aborts_without_count (fun _ => true) (fun i => i == 0) 3 1
    (by decide) (by decide) (by decide)

/-! ## C7: the start/start race -/

/-- C7 counterexample: the canonical start handler only checks the
registry before its await and stores the handle after it, so under the
interleaving A-check, B-check, A-install, B-install BOTH concurrent start
calls for the same site succeed, two timers are created, and the second
handle silently overwrites the first. -/
theorem start_race_both_succeed_canonical :
    (canonRun true 1 [true, false, true, false] canonInit).tA = .finished .started ∧
    (canonRun true 1 [true, false, true, false] canonInit).tB = .finished .started ∧
    (canonRun true 1 [true, false, true, false] canonInit).timersMade = 2 ∧
    mapCount (canonRun true 1 [true, false, true, false] canonInit).reg 1 = 1 := by
  decide

/-- The initial two-request state satisfies the variant invariant. -/
theorem variantInv_init (db : Bool) (id : Nat) : variantInv db id variantInit := by
  refine ⟨rfl, rfl, by simp [mapCount, variantInit], fun _ => ⟨by simp [variantInit], by simp [variantInit]⟩⟩

theorem busy_atCheck : busy .atCheck = false := rfl

theorem busy_atInstall : busy .atInstall = true := rfl

theorem busy_finished_started : busy (.finished .started) = true := rfl

theorem busy_finished_already : busy (.finished .alreadyRunning) = false := rfl

theorem busy_finished_notFound : busy (.finished .siteNotFound) = false := rfl

/-- Every event-loop resumption preserves the variant invariant. -/
theorem variantInv_step (db : Bool) (id : Nat) (s : VSys) (who : Bool)
    (h : variantInv db id s) : variantInv db id (variantStep db id s who) := by
  obtain ⟨h1, h2, h3, h4⟩ := h
  cases who with
  | true =>
    cases hA : s.tA with
    | atCheck =>
      rw [hA] at h1 h2 h4
      rw [busy_atCheck, Bool.false_and] at h1
      rw [busy_atCheck, Bool.false_or] at h2
      by_cases hHas : mapHas s.reg id = true
      · simp only [variantStep, if_pos rfl, hA, hHas, if_true]
        refine ⟨?_, ?_, ?_, ?_⟩
        · simp [vsetT, busy_finished_already]
        · simpa [vsetT, busy_finished_already] using h2
        · simpa [vsetT] using h3
        · exact fun hdb => ⟨by simp [vsetT], fun hc => (h4 hdb).2 (by simpa [vsetT] using hc)⟩
      · have hHas' : mapHas s.reg id = false := by simpa using hHas
        have hBfree : busy s.tB = false := by rw [hHas'] at h2; exact h2.symm
        simp only [variantStep, if_pos rfl, hA, hHas', Bool.false_eq_true, if_false]
        refine ⟨?_, ?_, ?_, ?_⟩
        · simp [vsetT, busy_atInstall, hBfree]
        · simp [vsetT, busy_atInstall, mapHas_mapSet]
        · simp [vsetT, mapCount_mapSet_of_not_has s.reg id none hHas']
        · exact fun hdb => ⟨by simp [vsetT], fun hc => (h4 hdb).2 (by simpa [vsetT] using hc)⟩
    | atInstall =>
      rw [hA] at h1 h2 h4
      rw [busy_atInstall, Bool.true_and] at h1
      rw [busy_atInstall, Bool.true_or] at h2
      cases hdb : db with
      | true =>
        simp only [variantStep, if_pos rfl, hA, hdb, if_true]
        refine ⟨?_, ?_, ?_, ?_⟩
        · simp [vsetT, busy_finished_started, h1]
        · simp [vsetT, busy_finished_started, mapHas_mapSet]
        · simpa [vsetT, mapCount_mapSet_of_has s.reg id _ h2] using h3
        · exact fun hc => by simp [hdb] at hc
      | false =>
        simp only [variantStep, if_pos rfl, hA, hdb, Bool.false_eq_true, if_false]
        refine ⟨?_, ?_, ?_, ?_⟩
        · simp [vsetT, busy_finished_notFound]
        · simp [vsetT, busy_finished_notFound, mapHas_mapDelete, h1]
        · simp [vsetT, mapCount_mapDelete]
        · exact fun _ => ⟨by simp [vsetT], fun hc => (h4 hdb).2 (by simpa [vsetT] using hc)⟩
    | finished r =>
      simp only [variantStep, if_pos rfl, hA]
      exact ⟨h1, h2, h3, h4⟩
  | false =>
    cases hB : s.tB with
    | atCheck =>
      rw [hB] at h1 h2 h4
      rw [busy_atCheck, Bool.and_false] at h1
      rw [busy_atCheck, Bool.or_false] at h2
      by_cases hHas : mapHas s.reg id = true
      · simp only [variantStep, Bool.false_eq_true, if_false, hB, hHas, if_true]
        refine ⟨?_, ?_, ?_, ?_⟩
        · simp [vsetT, busy_finished_already]
        · simpa [vsetT, busy_finished_already] using h2
        · simpa [vsetT] using h3
        · exact fun hdb => ⟨fun hc => (h4 hdb).1 (by simpa [vsetT] using hc), by simp [vsetT]⟩
      · have hHas' : mapHas s.reg id = false := by simpa using hHas
        have hAfree : busy s.tA = false := by rw [hHas'] at h2; exact h2.symm
        simp only [variantStep, Bool.false_eq_true, if_false, hB, hHas']
        refine ⟨?_, ?_, ?_, ?_⟩
        · simp [vsetT, busy_atInstall, hAfree]
        · simp [vsetT, busy_atInstall, mapHas_mapSet]
        · simp [vsetT, mapCount_mapSet_of_not_has s.reg id none hHas']
        · exact fun hdb => ⟨fun hc => (h4 hdb).1 (by simpa [vsetT] using hc), by simp [vsetT]⟩
    | atInstall =>
      rw [hB] at h1 h2 h4
      rw [busy_atInstall, Bool.and_true] at h1
      rw [busy_atInstall, Bool.or_true] at h2
      cases hdb : db with
      | true =>
        simp only [variantStep, Bool.false_eq_true, if_false, hB, hdb, if_true]
        refine ⟨?_, ?_, ?_, ?_⟩
        · simp [vsetT, busy_finished_started, h1]
        · simp [vsetT, busy_finished_started, mapHas_mapSet]
        · simpa [vsetT, mapCount_mapSet_of_has s.reg id _ h2] using h3
        · exact fun hc => by simp [hdb] at hc
      | false =>
        simp only [variantStep, Bool.false_eq_true, if_false, hB, hdb]
        refine ⟨?_, ?_, ?_, ?_⟩
        · simp [vsetT, busy_finished_notFound]
        · simp [vsetT, busy_finished_notFound, mapHas_mapDelete, h1]
        · simp [vsetT, mapCount_mapDelete]
        · exact fun _ => ⟨fun hc => (h4 hdb).1 (by simpa [vsetT] using hc), by simp [vsetT]⟩
    | finished r =>
      simp only [variantStep, Bool.false_eq_true, if_false, hB]
      exact ⟨h1, h2, h3, h4⟩

/-- C7 (amended): the reserve-before-validate pattern is present in the
part_001 variant of the start handler (reserve at the synchronous check,
release with `SiteNotFound` if validation fails): under EVERY interleaving
of two concurrent start calls for the same site, at most one finishes
started, the registry never holds more than one handle for the site, and
with an absent site neither call ever starts.  The canonical
src/index.ts handler reserves only after its await and admits the race of
`start_race_both_succeed_canonical`. -/
theorem start_race_at_most_one_succeeds_variant (db : Bool) (sched : List Bool) :
    (¬((variantRun db 1 sched variantInit).tA = .finished .started ∧
       (variantRun db 1 sched variantInit).tB = .finished .started)) ∧
    mapCount (variantRun db 1 sched variantInit).reg 1 ≤ 1 ∧
    (db = false → (variantRun db 1 sched variantInit).tA ≠ .finished .started ∧
      (variantRun db 1 sched variantInit).tB ≠ .finished .started) := by
  have hall : ∀ (l : List Bool) (s : VSys), variantInv db 1 s →
      variantInv db 1 (variantRun db 1 l s) := by
    intro l
    induction l with
    | nil => exact fun s hs => hs
    | cons w l ih => exact fun s hs => ih _ (variantInv_step db 1 s w hs)
  obtain ⟨h1, h2, h3, h4⟩ := hall sched variantInit (variantInv_init db 1)
  refine ⟨?_, h3, h4⟩
  rintro ⟨ha, hb⟩
  rw [ha, hb] at h1
  simp [busy] at h1

/-! ## C8: the irradiance profile -/

/-- C8 (confirmed): irradiance is zero outside `[sunrise, sunset]`, equals
the clamped sine curve inside, peaks with exactly `gMax` at the midpoint
of the day, and never exceeds `gMax`. -/
theorem irradiance_profile (hour sunrise sunset gMax : ℝ)
    (hss : sunrise < sunset) (hg : 0 ≤ gMax) :
    (hour < sunrise ∨ sunset < hour → irradianceAtHour hour sunrise sunset gMax = 0) ∧
    (sunrise ≤ hour → hour ≤ sunset →
      irradianceAtHour hour sunrise sunset gMax =
        max 0 (gMax * Real.sin (Real.pi * ((hour - sunrise) / (sunset - sunrise))))) ∧
    irradianceAtHour ((sunrise + sunset) / 2) sunrise sunset gMax = gMax ∧
    irradianceAtHour hour sunrise sunset gMax ≤ gMax := by
  have hne : sunset - sunrise ≠ 0 := sub_ne_zero.mpr (ne_of_gt hss)
  refine ⟨?_, ?_, ?_, ?_⟩
  · intro h
    simp [irradianceAtHour, h]
  · intro hl hr
    have hnot : ¬(hour < sunrise ∨ sunset < hour) := by
      push_neg
      exact ⟨not_lt.mpr hl |> fun _ => hl, hr⟩
    simp [irradianceAtHour, hnot]
  · have hmid : ¬((sunrise + sunset) / 2 < sunrise ∨ sunset < (sunrise + sunset) / 2) := by
      push_neg
      constructor <;> linarith
    have hx : ((sunrise + sunset) / 2 - sunrise) / (sunset - sunrise) = 1 / 2 := by
      field_simp
      ring
    simp only [irradianceAtHour, hmid, if_false]
    rw [hx, show Real.pi * (1 / 2 : ℝ) = Real.pi / 2 from by ring, Real.sin_pi_div_two,
      mul_one, max_eq_right hg]
  · unfold irradianceAtHour
    split
    · exact hg
    · refine max_le hg ?_
      calc gMax * Real.sin (Real.pi * ((hour - sunrise) / (sunset - sunrise)))
          ≤ gMax * 1 := mul_le_mul_of_nonneg_left (Real.sin_le_one _) hg
        _ = gMax := mul_one gMax

/-- Witness for C8 at the source defaults, with an after-sunset hour. -/
theorem irradiance_profile_witness :
    ((20 : ℝ) < 6 ∨ (18 : ℝ) < 20 → irradianceAtHour 20 6 18 900 = 0) ∧
    ((6 : ℝ) ≤ 20 → (20 : ℝ) ≤ 18 →
      irradianceAtHour 20 6 18 900 =
        max 0 (900 * Real.sin (Real.pi * (((20 : ℝ) - 6) / (18 - 6))))) ∧
    irradianceAtHour (((6 : ℝ) + 18) / 2) 6 18 900 = 900 ∧
    irradianceAtHour 20 6 18 900 ≤ 900 :=
  irradiance_profile 20 6 18 900 (by norm_num) (by norm_num)

/-! ## C9: AC power is monotone in irradiance and capped -/

/-- C9 (confirmed): over the irradiance domain the model can produce
(irradiance is never negative), `computeACPowerKw` is monotone
non-decreasing in irradiance for fixed capacity, temperature coefficient,
module temperature and derate, and its value never exceeds the rated
capacity (the latter for every input whatsoever). -/
theorem acPower_monotone_and_capped (capacityKw tempCoeff moduleTempC derate i1 i2 i3 : ℝ)
    (h0 : 0 ≤ i1) (h12 : i1 ≤ i2) :
    computeACPowerKw capacityKw i1 tempCoeff moduleTempC derate ≤
      computeACPowerKw capacityKw i2 tempCoeff moduleTempC derate ∧
    computeACPowerKw capacityKw i3 tempCoeff moduleTempC derate ≤ capacityKw := by
  constructor
  · show min (max 0 (capacityKw * (i1 / 1000) * derate *
        (1 + tempCoeff * (moduleTempC - 25)) * 0.98)) capacityKw ≤
      min (max 0 (capacityKw * (i2 / 1000) * derate *
        (1 + tempCoeff * (moduleTempC - 25)) * 0.98)) capacityKw
    rcases le_total 0 (capacityKw * derate * (1 + tempCoeff * (moduleTempC - 25))) with hK | hK
    · refine min_le_min (max_le_max le_rfl ?_) le_rfl
      nlinarith [mul_le_mul_of_nonneg_left h12 hK]
    · have h02 : (0 : ℝ) ≤ i2 := h0.trans h12
      have ha : capacityKw * (i1 / 1000) * derate *
          (1 + tempCoeff * (moduleTempC - 25)) * 0.98 ≤ 0 := by
        nlinarith [mul_le_mul_of_nonneg_right hK h0]
      have hb : capacityKw * (i2 / 1000) * derate *
          (1 + tempCoeff * (moduleTempC - 25)) * 0.98 ≤ 0 := by
        nlinarith [mul_le_mul_of_nonneg_right hK h02]
      rw [max_eq_left ha, max_eq_left hb]
  · exact min_le_right _ _

/-- Witness for C9 at concrete physical inputs. -/
theorem acPower_monotone_and_capped_witness :
    computeACPowerKw 5 450 (-0.004) 40 0.95 ≤ computeACPowerKw 5 900 (-0.004) 40 0.95 ∧
    computeACPowerKw 5 2000 (-0.004) 40 0.95 ≤ 5 :=
  acPower_monotone_and_capped 5 (-0.004) 40 0.95 450 900 2000 (by norm_num) (by norm_num)

/-! ## Concrete evaluations of the physics model -/

theorem dateHour_noon : dateHour ⟨12, 0⟩ = 12 := by
  unfold dateHour
  norm_num

theorem dateHour_midnight : dateHour ⟨0, 0⟩ = 0 := by
  unfold dateHour
  norm_num

theorem irradianceAtHour_noon : irradianceAtHour 12 6 18 900 = 900 := by
  have hnot : ¬((12 : ℝ) < 6 ∨ (18 : ℝ) < 12) := by norm_num
  simp only [irradianceAtHour, hnot, if_false]
  rw [show ((12 : ℝ) - 6) / (18 - 6) = 1 / 2 from by norm_num,
    show Real.pi * (1 / 2 : ℝ) = Real.pi / 2 from by ring, Real.sin_pi_div_two]
  norm_num

theorem irradianceAtHour_midnight : irradianceAtHour 0 6 18 900 = 0 := by
  have hlt : ((0 : ℝ) < 6 ∨ (18 : ℝ) < 0) := by norm_num
  simp only [irradianceAtHour, hlt, if_true]

theorem sin_ambient_noon : Real.sin (2 * Real.pi / 24 * 12 - Real.pi / 2) = 1 := by
  rw [show 2 * Real.pi / 24 * 12 - Real.pi / 2 = Real.pi / 2 from by ring,
    Real.sin_pi_div_two]

theorem computeACPowerKw_le_capacity (c i tc mt dr : ℝ) :
    computeACPowerKw c i tc mt dr ≤ c :=
  min_le_right _ _

theorem computeACPowerKw_noon (cap : ℝ) (hc : 0 ≤ cap) :
    computeACPowerKw cap 900 (-0.004) 58.125 0.95 = 0.72687825 * cap := by
  show min (max 0 (cap * (900 / 1000) * 0.95 * (1 + (-0.004) * (58.125 - 25)) * 0.98)) cap =
    0.72687825 * cap
  rw [show cap * (900 / 1000) * 0.95 * (1 + (-0.004) * (58.125 - 25)) * 0.98 =
    0.72687825 * cap from by ring]
  rw [max_eq_right (by nlinarith), min_eq_left (by nlinarith)]

theorem computeACPowerKw_zero_irr (cap tc mt dr : ℝ) (hc : 0 ≤ cap) :
    computeACPowerKw cap 0 tc mt dr = 0 := by
  show min (max 0 (cap * (0 / 1000) * dr * (1 + tc * (mt - 25)) * 0.98)) cap = 0
  rw [show cap * (0 / 1000) * dr * (1 + tc * (mt - 25)) * 0.98 = 0 from by ring]
  rw [max_self]
  exact min_eq_left hc

/-- At solar noon the generated sample has irradiance exactly 900 and
noisy power `max 0 (0.72687825 * cap + rand * 0.2)`. -/
theorem physics_noon (cap r1 r2 r3 : ℝ) (hc : 0 ≤ cap) :
    (computeSitePhysics (some cap) ⟨12, 0⟩ r1 r2 r3).irradiance = 900 ∧
    (computeSitePhysics (some cap) ⟨12, 0⟩ r1 r2 r3).powerKw =
      max 0 (0.72687825 * cap + r1 * 0.2) := by
  simp only [computeSitePhysics, Option.getD_some, dateHour_noon, irradianceAtHour_noon,
    sin_ambient_noon]
  refine ⟨trivial, ?_⟩
  rw [show moduleTemp (20 + 10 * 1) 900 45 = 58.125 from by unfold moduleTemp; norm_num]
  rw [computeACPowerKw_noon cap hc]

/-- Before sunrise the generated sample's power is just the clamped noise. -/
theorem physics_midnight (cap r1 r2 r3 : ℝ) (hc : 0 ≤ cap) :
    (computeSitePhysics (some cap) ⟨0, 0⟩ r1 r2 r3).powerKw = max 0 (r1 * 0.2) := by
  simp only [computeSitePhysics, Option.getD_some, dateHour_midnight, irradianceAtHour_midnight]
  rw [computeACPowerKw_zero_irr cap (-0.004) _ 0.95 hc, zero_add]

/-! ## C1: the power range invariant -/

/-- C1 counterexample: for a 0.01 kW site at solar noon with the noise
draw 0.95 (noise 0.19 kW), the persisted `powerKw` strictly exceeds the
rated capacity — the noise is added AFTER the clamp to capacity. -/
theorem power_exceeds_capacity_counterexample :
    (computeSitePhysics (some (1 / 100)) ⟨12, 0⟩ (19 / 20) 0 0).powerKw > (1 / 100 : ℝ) := by
  rw [(physics_noon (1 / 100) (19 / 20) 0 0 (by norm_num)).2]
  rw [max_eq_right (by norm_num)]
  norm_num

/-- C1 (amended): the pre-noise AC power is clamped to `[0, capacity]`,
so after the additive noise `rand * 0.2` with `rand ∈ [0, 1]` the sample's
`powerKw` always lies in `[0, capacity + 0.2]`; it is never negative but
may exceed the capacity by up to 0.2 kW. -/
theorem power_within_noise_bound (cap : Option ℝ) (ts : LocalTime) (r1 r2 r3 : ℝ)
    (hc : 0 ≤ cap.getD 1) (_h0 : 0 ≤ r1) (h1 : r1 ≤ 1) :
    0 ≤ (computeSitePhysics cap ts r1 r2 r3).powerKw ∧
    (computeSitePhysics cap ts r1 r2 r3).powerKw ≤ cap.getD 1 + 0.2 := by
  constructor
  · simp only [computeSitePhysics]
    exact le_max_left _ _
  · simp only [computeSitePhysics]
    have hpow : computeACPowerKw (cap.getD 1)
        (irradianceAtHour (dateHour ts) 6 18 900) (-0.004)
        (moduleTemp (20 + 10 * Real.sin (2 * Real.pi / 24 * dateHour ts - Real.pi / 2))
          (irradianceAtHour (dateHour ts) 6 18 900) 45) 0.95 ≤ cap.getD 1 :=
      computeACPowerKw_le_capacity _ _ _ _ _
    have hr : r1 * 0.2 ≤ 0.2 := by nlinarith
    refine max_le (by linarith) (by linarith)

/-- Witness for C1 (amended) at a 5 kW site before sunrise with zero noise. -/
theorem power_within_noise_bound_witness :
    0 ≤ (computeSitePhysics (some 5) ⟨0, 0⟩ 0 0 0).powerKw ∧
    (computeSitePhysics (some 5) ⟨0, 0⟩ 0 0 0).powerKw ≤ (some (5 : ℝ)).getD 1 + 0.2 :=
  power_within_noise_bound (some 5) ⟨0, 0⟩ 0 0 0 (by norm_num) (by norm_num) (by norm_num)

/-! ## C4: the solar-noon end-to-end value -/

/-- C4 counterexample: a 5 kW site at solar noon (zero noise) yields
irradiance 900 but an AC power strictly BELOW 4.0 kW — the temperature
derate at a module temperature of 58.125 °C brings it to 3.63439125 kW,
refuting "strictly greater than 4.0". -/
theorem noon_power_below_four :
    (computeSitePhysics (some 5) ⟨12, 0⟩ 0 0 0).irradiance = 900 ∧
    (computeSitePhysics (some 5) ⟨12, 0⟩ 0 0 0).powerKw < 4 := by
  obtain ⟨hi, hp⟩ := physics_noon 5 0 0 0 (by norm_num)
  refine ⟨hi, ?_⟩
  rw [hp, max_eq_right (by norm_num)]
  norm_num

/-- C4 (amended): a 5 kW site at solar noon yields irradiance exactly 900
and a pre-noise AC power strictly between 3.6 and 5.0 kW (its exact value
is 3.63439125 kW). -/
theorem noon_power_between :
    (computeSitePhysics (some 5) ⟨12, 0⟩ 0 0 0).irradiance = 900 ∧
    3.6 < (computeSitePhysics (some 5) ⟨12, 0⟩ 0 0 0).powerKw ∧
    (computeSitePhysics (some 5) ⟨12, 0⟩ 0 0 0).powerKw < 5 := by
  obtain ⟨hi, hp⟩ := physics_noon 5 0 0 0 (by norm_num)
  rw [hp, max_eq_right (by norm_num)]
  refine ⟨hi, by norm_num, by norm_num⟩

/-! ## C5: rounding of persisted versus published values -/

/-- C5 counterexample: for a 5 kW site before sunrise with noise draw
1/20000 the raw noisy power is 0.00001 kW; the persisted telemetry value
is its 4-decimal rounding 0, but the WebSocket payload publishes the raw
0.00001 — persisted and published values differ for the same draws. -/
theorem published_value_not_rounded_counterexample :
    (persistedTelemetry (computeSitePhysics (some 5) ⟨0, 0⟩ (1 / 20000) 0 0)).value ≠
      (tickPayload (computeSitePhysics (some 5) ⟨0, 0⟩ (1 / 20000) 0 0)).powerKw := by
  have hval : (computeSitePhysics (some 5) ⟨0, 0⟩ (1 / 20000) 0 0).powerKw =
      1 / 100000 := by
    rw [physics_midnight 5 (1 / 20000) 0 0 (by norm_num), max_eq_right (by norm_num)]
    norm_num
  simp only [persistedTelemetry, tickPayload]
  rw [hval]
  unfold roundTo
  have hround : round ((1 / 100000 : ℝ) * 10 ^ 4) = 0 := by
    rw [round_eq, show (1 / 100000 : ℝ) * 10 ^ 4 + 1 / 2 = 3 / 5 from by norm_num]
    exact Int.floor_eq_zero_iff.mpr ⟨by norm_num, by norm_num⟩
  rw [hround]
  norm_num

/-- C5 (amended): each persisted quantity is rounded to the fixed
precision (2 decimal places for the weather fields, 4 for power), but the
published payload carries the RAW physics values; persisted and published
power agree exactly when the raw power already has at most 4 decimal
places. -/
theorem persisted_rounded_published_raw (cap : Option ℝ) (ts : LocalTime) (r1 r2 r3 : ℝ) :
    (persistedTelemetry (computeSitePhysics cap ts r1 r2 r3)).value =
      roundTo 4 (computeSitePhysics cap ts r1 r2 r3).powerKw ∧
    (persistedWeather (computeSitePhysics cap ts r1 r2 r3)).irradiance_wm2 =
      roundTo 2 (computeSitePhysics cap ts r1 r2 r3).irradiance ∧
    (persistedWeather (computeSitePhysics cap ts r1 r2 r3)).ambient_temp_c =
      roundTo 2 (computeSitePhysics cap ts r1 r2 r3).ambient ∧
    (persistedWeather (computeSitePhysics cap ts r1 r2 r3)).module_temp_c =
      roundTo 2 (computeSitePhysics cap ts r1 r2 r3).moduleTempC ∧
    (persistedWeather (computeSitePhysics cap ts r1 r2 r3)).wind_speed_ms =
      roundTo 2 (computeSitePhysics cap ts r1 r2 r3).windSpeed ∧
    (persistedWeather (computeSitePhysics cap ts r1 r2 r3)).wind_dir_deg =
      roundTo 2 (computeSitePhysics cap ts r1 r2 r3).windDir ∧
    (tickPayload (computeSitePhysics cap ts r1 r2 r3)).powerKw =
      (computeSitePhysics cap ts r1 r2 r3).powerKw ∧
    (tickPayload (computeSitePhysics cap ts r1 r2 r3)).irradiance =
      (computeSitePhysics cap ts r1 r2 r3).irradiance ∧
    (tickPayload (computeSitePhysics cap ts r1 r2 r3)).temp =
      (computeSitePhysics cap ts r1 r2 r3).moduleTempC ∧
    ((persistedTelemetry (computeSitePhysics cap ts r1 r2 r3)).value =
        (tickPayload (computeSitePhysics cap ts r1 r2 r3)).powerKw ↔
      roundTo 4 (computeSitePhysics cap ts r1 r2 r3).powerKw =
        (computeSitePhysics cap ts r1 r2 r3).powerKw) :=
  ⟨rfl, rfl, rfl, rfl, rfl, rfl, rfl, rfl, rfl, Iff.rfl⟩

/-! ## C10: the silent default capacity -/

/-- C10 (confirmed): when the stored `capacity_kw` is null, sample
generation (used by both the live tick and the seed loop) silently runs
the physics with a default capacity of 1.0 kW instead of failing: the
generated sample and both persisted facets are identical to those of a
site with capacity 1.0. -/
theorem null_capacity_defaults_to_one (ts : LocalTime) (r1 r2 r3 : ℝ) :
    computeSitePhysics none ts r1 r2 r3 = computeSitePhysics (some 1) ts r1 r2 r3 ∧
    generateTelemetryPointForSite (some none) ts r1 r2 r3 =
      generateTelemetryPointForSite (some (some 1)) ts r1 r2 r3 :=
  ⟨rfl, rfl⟩

end PVx
